import Mathlib

/-!
Verification development for the domain schema in `src/app/models.py` of the
haji-umrah-connect repository.  The file shallowly embeds the declared data
model: enumerations, the pydantic-style validation constraints attached to the
Create/Update/Login view shapes, the decimal digit checks, the email pattern
of `User.email`, and the unique constraints declared on persistent columns.
Python `datetime` values are modelled as natural-number timestamps; Python
`Decimal` values as coefficient/exponent pairs mirroring `Decimal.as_tuple()`.
-/

namespace HajiUmrah

/-- Enum `UserRole` from `src/app/models.py` lines 9-12. -/
inductive UserRole
  | SEEKER
  | PROVIDER
  | ADMIN
deriving DecidableEq, Repr

/-- Enum `ServiceType` from `src/app/models.py` lines 21-23. -/
inductive ServiceType
  | BADAL_HAJI
  | BADAL_UMRAH
deriving DecidableEq, Repr

/-- A Python `decimal.Decimal` value, mirroring `Decimal.as_tuple()`:
`mantissa` is the signed coefficient (its base-10 digit string carries no
leading zeros, as in Python), `exp` the exponent; the value denoted is
`mantissa * 10 ^ exp`.  For example `Decimal("10.00")` is `⟨1000, -2⟩` and
`Decimal("10.005")` is `⟨10005, -3⟩`. -/
structure Dec where
  mantissa : Int
  exp : Int
deriving DecidableEq, Repr

/-- Fuel-driven count of base-10 digits; `digitCountAux (n+1) n` is the length
of the digit string of `n`, with `0` having one digit (in Python,
`Decimal(0).as_tuple().digits = (0,)`). -/
def digitCountAux : Nat → Nat → Nat
  | 0, _ => 0
  | fuel + 1, n => if n < 10 then 1 else digitCountAux fuel (n / 10) + 1

/-- Number of base-10 digits of a natural number (at least 1). -/
def digitCount (n : Nat) : Nat := digitCountAux (n + 1) n

/-- Length of the coefficient digit tuple of a decimal. -/
def Dec.digitLen (d : Dec) : Nat := digitCount d.mantissa.natAbs

/-- Number of decimal places of a decimal, as computed by the pydantic digit
check: `abs(exponent)` when the exponent is negative, else `0`. -/
def Dec.decimals (d : Dec) : Nat := (-d.exp).toNat

/-- Total digit count of a decimal, as computed by the pydantic digit check:
for a non-negative exponent the coefficient length plus the exponent (trailing
zeros); for a negative exponent the larger of the coefficient length and the
number of decimal places (leading fractional zeros). -/
def Dec.digits (d : Dec) : Nat :=
  if 0 ≤ d.exp then d.digitLen + d.exp.toNat
  else max d.digitLen d.decimals

/-- The pydantic constraint check for `Field(decimal_places=dp, max_digits=md)`:
the decimal places, total digits, and whole digits are all bounded. -/
def checkDigits (dp md : Nat) (d : Dec) : Bool :=
  decide (d.decimals ≤ dp) && decide (d.digits ≤ md) &&
    decide (d.digits - d.decimals ≤ md - dp)

/-- Declared constraint on `Booking.total_amount`
(`src/app/models.py` line 142: `Field(decimal_places=2, max_digits=12)`). -/
def bookingTotalAmountConstraint (d : Dec) : Bool := checkDigits 2 12 d

/-- Character class `[a-zA-Z0-9_.+-]` (local part of the email pattern). -/
def isLocalChar (c : Char) : Bool :=
  c.isAlpha || c.isDigit || c == '_' || c == '.' || c == '+' || c == '-'

/-- Character class `[a-zA-Z0-9-]` (first domain label of the email pattern). -/
def isDomainChar (c : Char) : Bool := c.isAlpha || c.isDigit || c == '-'

/-- Character class `[a-zA-Z0-9-.]` (domain tail of the email pattern). -/
def isDomainDotChar (c : Char) : Bool := isDomainChar c || c == '.'

/-- Remainder of the domain after at least one `[a-zA-Z0-9-]` character was
consumed: either the separating literal dot followed by a non-empty
`[a-zA-Z0-9-.]+` tail, or one more `[a-zA-Z0-9-]` character.  Because the
class before the literal dot cannot contain a dot, the separator is forced to
be the first dot of the domain, so the match is deterministic. -/
def domainRestMatch : List Char → Bool
  | [] => false
  | c :: rest =>
    if c == '.' then !rest.isEmpty && rest.all isDomainDotChar
    else isDomainChar c && domainRestMatch rest

/-- Matches `[a-zA-Z0-9-]+\.[a-zA-Z0-9-.]+` against the whole list. -/
def domainMatch : List Char → Bool
  | [] => false
  | c :: rest => isDomainChar c && domainRestMatch rest

/-- Remainder of the email after at least one local-part character was
consumed: either the `@` followed by the domain, or one more local-part
character.  `@` belongs to no character class of the pattern, so the
separator is forced to be the first `@`. -/
def emailRestMatch : List Char → Bool
  | [] => false
  | c :: rest =>
    if c == '@' then domainMatch rest
    else isLocalChar c && emailRestMatch rest

/-- Full-anchored match of the regex `^[a-zA-Z0-9_.+-]+@[a-zA-Z0-9-]+\.[a-zA-Z0-9-.]+$`
declared on `User.email` (`src/app/models.py` line 56). -/
def emailMatch (s : String) : Bool :=
  match s.data with
  | [] => false
  | c :: rest => isLocalChar c && emailRestMatch rest

/-- Declared constraint on the persistent `User.email` column
(`src/app/models.py` line 56): `max_length=255` and the regex; uniqueness is a
store-level constraint, handled separately. -/
def userEmailConstraint (email : String) : Bool :=
  decide (email.length ≤ 255) && emailMatch email

/-- A pydantic validation failure, naming the offending field and the
violated constraint. -/
structure ValidationError where
  field : String
  msg : String
deriving DecidableEq, Repr

/-- Whether an `Except` result is a success. -/
def exceptOk {ε α : Type} : Except ε α → Bool
  | .ok _ => true
  | .error _ => false

/-- Bound check for an optional string field with `max_length=maxLen`:
an absent field is not checked. -/
def optStrOk (maxLen : Nat) : Option String → Bool
  | none => true
  | some s => decide (s.length ≤ maxLen)

/-- View `UserCreate` (`src/app/models.py` lines 243-248). -/
structure UserCreate where
  email : String
  password : String
  full_name : String
  phone : String
  role : UserRole
deriving DecidableEq, Repr

/-- Pydantic validation of `UserCreate` (`src/app/models.py` lines 243-248):
`email` max 255 chars (no regex is declared on this view), `password` 8-128
chars, `full_name` max 200, `phone` max 20. -/
def validateUserCreate (email password full_name phone : String) (role : UserRole) :
    Except ValidationError UserCreate :=
  if 255 < email.length then .error ⟨"email", "max_length 255"⟩
  else if password.length < 8 then .error ⟨"password", "min_length 8"⟩
  else if 128 < password.length then .error ⟨"password", "max_length 128"⟩
  else if 200 < full_name.length then .error ⟨"full_name", "max_length 200"⟩
  else if 20 < phone.length then .error ⟨"phone", "max_length 20"⟩
  else .ok ⟨email, password, full_name, phone, role⟩

/-- View `UserLogin` (`src/app/models.py` lines 251-253). -/
structure UserLogin where
  email : String
  password : String
deriving DecidableEq, Repr

/-- Pydantic validation of `UserLogin` (`src/app/models.py` lines 251-253):
only `max_length` bounds, no minimum and no email pattern. -/
def validateUserLogin (email password : String) : Except ValidationError UserLogin :=
  if 255 < email.length then .error ⟨"email", "max_length 255"⟩
  else if 128 < password.length then .error ⟨"password", "max_length 128"⟩
  else .ok ⟨email, password⟩

/-- View `ReviewCreate` (`src/app/models.py` lines 328-331). -/
structure ReviewCreate where
  booking_id : Nat
  rating : Int
  comment : Option String
deriving DecidableEq, Repr

/-- Pydantic validation of `ReviewCreate` (`src/app/models.py` lines 328-331):
`rating` in `[1,5]` (`ge=1, le=5`), `comment` max 1000 chars when present. -/
def validateReviewCreate (booking_id : Nat) (rating : Int) (comment : Option String) :
    Except ValidationError ReviewCreate :=
  if rating < 1 then .error ⟨"rating", "ge 1"⟩
  else if 5 < rating then .error ⟨"rating", "le 5"⟩
  else if !optStrOk 1000 comment then .error ⟨"comment", "max_length 1000"⟩
  else .ok ⟨booking_id, rating, comment⟩

/-- Persistent entity `Service` (`src/app/models.py` lines 110-125);
relationship attributes are store-level joins and carry no column of their
own, so they are not fields here. -/
structure Service where
  id : Option Nat
  provider_id : Nat
  title : String
  description : String
  service_type : ServiceType
  price : Dec
  duration_days : Int
  max_capacity : Int
  includes : List String
  requirements : List String
  is_active : Bool
  created_at : Nat
  updated_at : Nat
deriving DecidableEq, Repr

/-- View `ServiceCreate` (`src/app/models.py` lines 287-295). -/
structure ServiceCreate where
  title : String
  description : String
  service_type : ServiceType
  price : Dec
  duration_days : Int
  max_capacity : Int
  includes : List String
  requirements : List String
deriving DecidableEq, Repr

/-- Pydantic validation of `ServiceCreate` (`src/app/models.py` lines
287-295): `title` max 200, `description` max 2000, `price` with
`decimal_places=2, max_digits=12`. -/
def validateServiceCreate (title description : String) (service_type : ServiceType)
    (price : Dec) (duration_days max_capacity : Int)
    (includes requirements : List String) : Except ValidationError ServiceCreate :=
  if 200 < title.length then .error ⟨"title", "max_length 200"⟩
  else if 2000 < description.length then .error ⟨"description", "max_length 2000"⟩
  else if !checkDigits 2 12 price then .error ⟨"price", "decimal_places 2 max_digits 12"⟩
  else .ok ⟨title, description, service_type, price, duration_days, max_capacity,
            includes, requirements⟩

/-- View `ServiceUpdate` (`src/app/models.py` lines 298-306): every field
optional, and no `service_type` field. -/
structure ServiceUpdate where
  title : Option String
  description : Option String
  price : Option Dec
  duration_days : Option Int
  max_capacity : Option Int
  includes : Option (List String)
  requirements : Option (List String)
  is_active : Option Bool
deriving DecidableEq, Repr

/-- Bound check for an optional price field with `decimal_places=2,
max_digits=12`: an absent field is not checked. -/
def optPriceOk : Option Dec → Bool
  | none => true
  | some p => checkDigits 2 12 p

/-- Pydantic validation of `ServiceUpdate` (`src/app/models.py` lines
298-306): every field defaults to `None` (so an absent field validates), and a
present field is checked against the same constraint as in `ServiceCreate`. -/
def validateServiceUpdate (title description : Option String) (price : Option Dec)
    (duration_days max_capacity : Option Int)
    (includes requirements : Option (List String)) (is_active : Option Bool) :
    Except ValidationError ServiceUpdate :=
  if !optStrOk 200 title then .error ⟨"title", "max_length 200"⟩
  else if !optStrOk 2000 description then .error ⟨"description", "max_length 2000"⟩
  else if !optPriceOk price then
    .error ⟨"price", "decimal_places 2 max_digits 12"⟩
  else .ok ⟨title, description, price, duration_days, max_capacity, includes,
            requirements, is_active⟩

/-- Modelled from the spec: applying an Update view to a stored entity
("fields absent from the input are left unchanged on the target entity; fields
present overwrite the corresponding entity field").  The update-application
code itself is not part of this repository; the set of updatable fields is the
`ServiceUpdate` shape from the source. -/
def applyServiceUpdate (u : ServiceUpdate) (s : Service) : Service :=
  { s with
    title := u.title.getD s.title
    description := u.description.getD s.description
    price := u.price.getD s.price
    duration_days := u.duration_days.getD s.duration_days
    max_capacity := u.max_capacity.getD s.max_capacity
    includes := u.includes.getD s.includes
    requirements := u.requirements.getD s.requirements
    is_active := u.is_active.getD s.is_active }

/-- Persistent entity `ProviderProfile` (`src/app/models.py` lines 81-102). -/
structure ProviderProfile where
  id : Option Nat
  user_id : Nat
  business_name : String
  description : String
  address : String
  city : String
  province : String
  postal_code : String
  license_number : Option String
  years_experience : Int
  is_verified : Bool
  is_available : Bool
  average_rating : Dec
  total_reviews : Int
  total_completed_services : Int
  gallery_images : List String
  certificates : List String
  created_at : Nat
  updated_at : Nat
deriving DecidableEq, Repr

/-- View `ProviderProfileCreate` (`src/app/models.py` lines 262-270): note the
absence of `average_rating`, `total_reviews` and `total_completed_services`. -/
structure ProviderProfileCreate where
  business_name : String
  description : String
  address : String
  city : String
  province : String
  postal_code : String
  license_number : Option String
  years_experience : Int
deriving DecidableEq, Repr

/-- View `ProviderProfileUpdate` (`src/app/models.py` lines 273-284): every
field optional; no `average_rating`, `total_reviews` or
`total_completed_services` field. -/
structure ProviderProfileUpdate where
  business_name : Option String
  description : Option String
  address : Option String
  city : Option String
  province : Option String
  postal_code : Option String
  license_number : Option String
  years_experience : Option Int
  is_available : Option Bool
  gallery_images : Option (List String)
  certificates : Option (List String)
deriving DecidableEq, Repr

/-- Modelled from the spec: creation via a Create shape ("server-assigned
fields (id, timestamps, computed counters, default status) are populated at
creation time").  The caller-supplied fields come from the
`ProviderProfileCreate` shape; the remaining fields take the defaults declared
on the persistent entity (`src/app/models.py` lines 93-102): `is_verified =
False`, `is_available = True`, `average_rating = Decimal("0")`,
`total_reviews = 0`, `total_completed_services = 0`, empty lists, and
server-assigned id and timestamps. -/
def createProviderProfile (c : ProviderProfileCreate) (user_id rowId now : Nat) :
    ProviderProfile :=
  { id := some rowId
    user_id := user_id
    business_name := c.business_name
    description := c.description
    address := c.address
    city := c.city
    province := c.province
    postal_code := c.postal_code
    license_number := c.license_number
    years_experience := c.years_experience
    is_verified := false
    is_available := true
    average_rating := ⟨0, 0⟩
    total_reviews := 0
    total_completed_services := 0
    gallery_images := []
    certificates := []
    created_at := now
    updated_at := now }

/-- Modelled from the spec: applying a `ProviderProfileUpdate` ("fields absent
from the input are left unchanged; fields present overwrite").  The set of
updatable fields is the `ProviderProfileUpdate` shape from the source. -/
def applyProviderProfileUpdate (u : ProviderProfileUpdate) (p : ProviderProfile) :
    ProviderProfile :=
  { p with
    business_name := u.business_name.getD p.business_name
    description := u.description.getD p.description
    address := u.address.getD p.address
    city := u.city.getD p.city
    province := u.province.getD p.province
    postal_code := u.postal_code.getD p.postal_code
    license_number := match u.license_number with
      | some l => some l
      | none => p.license_number
    years_experience := u.years_experience.getD p.years_experience
    is_available := u.is_available.getD p.is_available
    gallery_images := u.gallery_images.getD p.gallery_images
    certificates := u.certificates.getD p.certificates }

/-- Persistent entity `Review` (`src/app/models.py` lines 178-187). -/
structure Review where
  id : Option Nat
  booking_id : Nat
  reviewer_id : Nat
  rating : Int
  comment : Option String
  created_at : Nat
  updated_at : Nat
deriving DecidableEq, Repr

/-- Persistent entity `SystemSettings` (`src/app/models.py` lines 231-239). -/
structure SystemSettings where
  id : Option Nat
  key : String
  value : String
  description : Option String
  created_at : Nat
  updated_at : Nat
deriving DecidableEq, Repr

/-- View `SystemSettingsUpdate` (`src/app/models.py` lines 370-372): `value`
is declared without a default, hence REQUIRED; only `description` is
optional. -/
structure SystemSettingsUpdate where
  value : String
  description : Option String
deriving DecidableEq, Repr

/-- Pydantic validation of `SystemSettingsUpdate` (`src/app/models.py` lines
370-372): an input with the `value` field absent fails with "field required";
a present `value` is bounded by 2000 chars and a present `description` by
500. -/
def validateSystemSettingsUpdate (value description : Option String) :
    Except ValidationError SystemSettingsUpdate :=
  match value with
  | none => .error ⟨"value", "field required"⟩
  | some v =>
    if 2000 < v.length then .error ⟨"value", "max_length 2000"⟩
    else if !optStrOk 500 description then .error ⟨"description", "max_length 500"⟩
    else .ok ⟨v, description⟩

/-- Modelled from the spec: applying a `SystemSettingsUpdate`.  `value` is a
required field of the view, so it always overwrites; `description` overwrites
only when present. -/
def applySystemSettingsUpdate (u : SystemSettingsUpdate) (s : SystemSettings) :
    SystemSettings :=
  { s with
    value := u.value
    description := match u.description with
      | some d => some d
      | none => s.description }

/-- Enum `UserStatus` from `src/app/models.py` lines 15-18. -/
inductive UserStatus
  | ACTIVE
  | INACTIVE
  | SUSPENDED
deriving DecidableEq, Repr

/-- Enum `BookingStatus` from `src/app/models.py` lines 26-31. -/
inductive BookingStatus
  | PENDING
  | CONFIRMED
  | IN_PROGRESS
  | COMPLETED
  | CANCELLED
deriving DecidableEq, Repr

/-- Enum `PaymentStatus` from `src/app/models.py` lines 34-37. -/
inductive PaymentStatus
  | PENDING
  | PAID
  | REFUNDED
deriving DecidableEq, Repr

/-- Enum `BlogStatus` from `src/app/models.py` lines 45-48. -/
inductive BlogStatus
  | DRAFT
  | PUBLISHED
  | ARCHIVED
deriving DecidableEq, Repr

/-- Persistent entity `User` (`src/app/models.py` lines 52-65). -/
structure User where
  id : Option Nat
  email : String
  password_hash : String
  full_name : String
  phone : String
  role : UserRole
  status : UserStatus
  avatar_url : Option String
  created_at : Nat
  updated_at : Nat
  last_login : Option Nat
deriving DecidableEq, Repr

/-- View `UserUpdate` (`src/app/models.py` lines 256-259): every field
optional. -/
structure UserUpdate where
  full_name : Option String
  phone : Option String
  avatar_url : Option String
deriving DecidableEq, Repr

/-- Pydantic validation of `UserUpdate` (`src/app/models.py` lines 256-259):
every field defaults to `None`; a present field is checked against the same
`max_length` as on the entity and `UserCreate`. -/
def validateUserUpdate (full_name phone avatar_url : Option String) :
    Except ValidationError UserUpdate :=
  if !optStrOk 200 full_name then .error ⟨"full_name", "max_length 200"⟩
  else if !optStrOk 20 phone then .error ⟨"phone", "max_length 20"⟩
  else if !optStrOk 500 avatar_url then .error ⟨"avatar_url", "max_length 500"⟩
  else .ok ⟨full_name, phone, avatar_url⟩

/-- Modelled from the spec: applying a `UserUpdate` ("fields absent from the
input are left unchanged; fields present overwrite").  The set of updatable
fields is the `UserUpdate` shape from the source. -/
def applyUserUpdate (u : UserUpdate) (e : User) : User :=
  { e with
    full_name := u.full_name.getD e.full_name
    phone := u.phone.getD e.phone
    avatar_url := match u.avatar_url with
      | some a => some a
      | none => e.avatar_url }

/-- Pydantic validation of `ProviderProfileUpdate` (`src/app/models.py` lines
273-284): every field defaults to `None`; a present field is checked against
the same `max_length` as in `ProviderProfileCreate`. -/
def validateProviderProfileUpdate
    (business_name description address city province postal_code license_number : Option String)
    (years_experience : Option Int) (is_available : Option Bool)
    (gallery_images certificates : Option (List String)) :
    Except ValidationError ProviderProfileUpdate :=
  if !optStrOk 200 business_name then .error ⟨"business_name", "max_length 200"⟩
  else if !optStrOk 2000 description then .error ⟨"description", "max_length 2000"⟩
  else if !optStrOk 500 address then .error ⟨"address", "max_length 500"⟩
  else if !optStrOk 100 city then .error ⟨"city", "max_length 100"⟩
  else if !optStrOk 100 province then .error ⟨"province", "max_length 100"⟩
  else if !optStrOk 10 postal_code then .error ⟨"postal_code", "max_length 10"⟩
  else if !optStrOk 100 license_number then .error ⟨"license_number", "max_length 100"⟩
  else .ok ⟨business_name, description, address, city, province, postal_code, license_number,
            years_experience, is_available, gallery_images, certificates⟩

/-- Persistent entity `Booking` (`src/app/models.py` lines 132-149). -/
structure Booking where
  id : Option Nat
  seeker_id : Nat
  provider_id : Nat
  service_id : Nat
  booking_date : Nat
  service_start_date : Nat
  service_end_date : Nat
  total_amount : Dec
  status : BookingStatus
  payment_status : PaymentStatus
  special_requests : Option String
  seeker_notes : Option String
  provider_notes : Option String
  created_at : Nat
  updated_at : Nat
deriving DecidableEq, Repr

/-- View `BookingUpdate` (`src/app/models.py` lines 315-319): every field
optional. -/
structure BookingUpdate where
  status : Option BookingStatus
  payment_status : Option PaymentStatus
  seeker_notes : Option String
  provider_notes : Option String
deriving DecidableEq, Repr

/-- Pydantic validation of `BookingUpdate` (`src/app/models.py` lines
315-319): every field defaults to `None`; the enum-typed fields carry no
further constraint, the note fields are bounded by 1000 chars. -/
def validateBookingUpdate (status : Option BookingStatus)
    (payment_status : Option PaymentStatus) (seeker_notes provider_notes : Option String) :
    Except ValidationError BookingUpdate :=
  if !optStrOk 1000 seeker_notes then .error ⟨"seeker_notes", "max_length 1000"⟩
  else if !optStrOk 1000 provider_notes then .error ⟨"provider_notes", "max_length 1000"⟩
  else .ok ⟨status, payment_status, seeker_notes, provider_notes⟩

/-- Modelled from the spec: applying a `BookingUpdate` ("fields absent from
the input are left unchanged; fields present overwrite").  The set of
updatable fields is the `BookingUpdate` shape from the source. -/
def applyBookingUpdate (u : BookingUpdate) (b : Booking) : Booking :=
  { b with
    status := u.status.getD b.status
    payment_status := u.payment_status.getD b.payment_status
    seeker_notes := match u.seeker_notes with
      | some n => some n
      | none => b.seeker_notes
    provider_notes := match u.provider_notes with
      | some n => some n
      | none => b.provider_notes }

/-- View `ReviewUpdate` (`src/app/models.py` lines 334-336): every field
optional. -/
structure ReviewUpdate where
  rating : Option Int
  comment : Option String
deriving DecidableEq, Repr

/-- Range check for the optional rating field of `ReviewUpdate`
(`Field(default=None, ge=1, le=5)`): an absent field is not checked. -/
def optRatingOk : Option Int → Bool
  | none => true
  | some r => decide (1 ≤ r) && decide (r ≤ 5)

/-- Pydantic validation of `ReviewUpdate` (`src/app/models.py` lines 334-336):
every field defaults to `None`; a present rating must lie in `[1,5]`, a
present comment within 1000 chars, as in `ReviewCreate`. -/
def validateReviewUpdate (rating : Option Int) (comment : Option String) :
    Except ValidationError ReviewUpdate :=
  if !optRatingOk rating then .error ⟨"rating", "ge 1 le 5"⟩
  else if !optStrOk 1000 comment then .error ⟨"comment", "max_length 1000"⟩
  else .ok ⟨rating, comment⟩

/-- Modelled from the spec: applying a `ReviewUpdate` ("fields absent from the
input are left unchanged; fields present overwrite").  The set of updatable
fields is the `ReviewUpdate` shape from the source. -/
def applyReviewUpdate (u : ReviewUpdate) (r : Review) : Review :=
  { r with
    rating := u.rating.getD r.rating
    comment := match u.comment with
      | some c => some c
      | none => r.comment }

/-- Persistent entity `BlogPost` (`src/app/models.py` lines 210-225). -/
structure BlogPost where
  id : Option Nat
  author_id : Nat
  title : String
  slug : String
  content : String
  excerpt : Option String
  featured_image : Option String
  status : BlogStatus
  tags : List String
  view_count : Int
  published_at : Option Nat
  created_at : Nat
  updated_at : Nat
deriving DecidableEq, Repr

/-- View `BlogPostUpdate` (`src/app/models.py` lines 355-361): every field
optional. -/
structure BlogPostUpdate where
  title : Option String
  content : Option String
  excerpt : Option String
  featured_image : Option String
  status : Option BlogStatus
  tags : Option (List String)
deriving DecidableEq, Repr

/-- Pydantic validation of `BlogPostUpdate` (`src/app/models.py` lines
355-361): every field defaults to `None`; `content` and the enum and list
fields carry no constraint, the string fields are bounded as in
`BlogPostCreate`. -/
def validateBlogPostUpdate (title content excerpt featured_image : Option String)
    (status : Option BlogStatus) (tags : Option (List String)) :
    Except ValidationError BlogPostUpdate :=
  if !optStrOk 300 title then .error ⟨"title", "max_length 300"⟩
  else if !optStrOk 500 excerpt then .error ⟨"excerpt", "max_length 500"⟩
  else if !optStrOk 500 featured_image then .error ⟨"featured_image", "max_length 500"⟩
  else .ok ⟨title, content, excerpt, featured_image, status, tags⟩

/-- Modelled from the spec: applying a `BlogPostUpdate` ("fields absent from
the input are left unchanged; fields present overwrite").  The set of
updatable fields is the `BlogPostUpdate` shape from the source. -/
def applyBlogPostUpdate (u : BlogPostUpdate) (b : BlogPost) : BlogPost :=
  { b with
    title := u.title.getD b.title
    content := u.content.getD b.content
    excerpt := match u.excerpt with
      | some e => some e
      | none => b.excerpt
    featured_image := match u.featured_image with
      | some f => some f
      | none => b.featured_image
    status := u.status.getD b.status
    tags := u.tags.getD b.tags }

/-- The part of the stored state the unique-constraint claims range over. -/
structure Store where
  provider_profiles : List ProviderProfile
  reviews : List Review
deriving DecidableEq, Repr

/-- The uniqueness violation raised by the persistence engine, naming the
violated constraint. -/
structure InsertError where
  constraint : String
deriving DecidableEq, Repr

/-- Modelled from the spec: the persistence engine enforces the unique
constraint declared on `Review.booking_id` (`src/app/models.py` line 182:
`Field(foreign_key="bookings.id", unique=True)`); an insert whose
`booking_id` already occurs fails and the state is unchanged. -/
def insertReview (st : Store) (r : Review) : Except InsertError Store :=
  if st.reviews.any (fun r0 => r0.booking_id == r.booking_id) then
    .error ⟨"reviews.booking_id unique"⟩
  else .ok { st with reviews := st.reviews ++ [r] }

/-- Modelled from the spec: the persistence engine enforces the unique
constraint declared on `ProviderProfile.user_id` (`src/app/models.py` line
85: `Field(foreign_key="users.id", unique=True)`); an insert whose `user_id`
already occurs fails and the state is unchanged. -/
def insertProviderProfile (st : Store) (p : ProviderProfile) : Except InsertError Store :=
  if st.provider_profiles.any (fun q => q.user_id == p.user_id) then
    .error ⟨"provider_profiles.user_id unique"⟩
  else .ok { st with provider_profiles := st.provider_profiles ++ [p] }

end HajiUmrah

namespace HajiUmrah

set_option maxRecDepth 4000

/-- Claim C1 (amended): `UserCreate` validation enforces only the 255-character
maximum on `email` — the `local@domain.tld` pattern is declared on the
persistent `User.email` column, not on the Create view — so `"not-an-email"`
passes `UserCreate` validation while the `User.email` column constraint
rejects it; `"user@example.com"` is accepted by both. -/
theorem c1_email_validation :
    userEmailConstraint "not-an-email" = false ∧
    userEmailConstraint "user@example.com" = true ∧
    exceptOk (validateUserCreate "not-an-email" "password123" "Full Name" "08123456789"
      UserRole.SEEKER) = true ∧
    exceptOk (validateUserCreate "user@example.com" "password123" "Full Name" "08123456789"
      UserRole.SEEKER) = true ∧
    (∀ (e p f ph : String) (r : UserRole),
      exceptOk (validateUserCreate e p f ph r) = true → e.length ≤ 255) := by
  refine ⟨by decide, by decide, by decide, by decide, ?_⟩
  intro e p f ph r h
  unfold validateUserCreate at h
  by_cases h1 : 255 < e.length
  · rw [if_pos h1] at h; simp [exceptOk] at h
  · omega

/-- Witness for C1: the accepted email is within 255 characters. -/
theorem c1_email_validation_witness : ("user@example.com" : String).length ≤ 255 :=
  c1_email_validation.2.2.2.2 "user@example.com" "password123" "Full Name" "08123456789"
    UserRole.SEEKER (by decide)

/-- Counterexample to C1 as stated: `"not-an-email"` does not match the email
pattern, yet constructing a `UserCreate` with it succeeds — the Create view
declares no regex on `email`. -/
theorem c1_counterexample :
    emailMatch "not-an-email" = false ∧
    exceptOk (validateUserCreate "not-an-email" "password123" "Full Name" "08123456789"
      UserRole.SEEKER) = true :=
  ⟨by decide, by decide⟩

/-- Claim C2 (amended): in every Update view each field is optional — absent
fields leave the stored field unchanged, present fields overwrite it subject to
the same per-field constraints as Create — with the single exception of
`SystemSettingsUpdate.value`, which is required (an input lacking it is
rejected) and always overwrites.  For each of the seven Update views the
conjuncts give the all-absent frame property, the all-present overwrite
property, and the characterisation of validation as exactly the per-field
Create constraints on the present fields. -/
theorem c2_update_field_semantics :
    (∀ (u : SystemSettingsUpdate) (st : SystemSettings),
      (applySystemSettingsUpdate u st).value = u.value ∧
      (applySystemSettingsUpdate u st).key = st.key ∧
      (u.description = none → (applySystemSettingsUpdate u st).description = st.description) ∧
      (∀ ds, u.description = some ds → (applySystemSettingsUpdate u st).description = some ds)) ∧
    (∀ d : Option String,
      validateSystemSettingsUpdate none d = Except.error ⟨"value", "field required"⟩) ∧
    (∀ (s : String) (d : Option String),
      exceptOk (validateSystemSettingsUpdate (some s) d)
        = (decide (s.length ≤ 2000) && optStrOk 500 d)) ∧
    (∀ e : User, applyUserUpdate ⟨none, none, none⟩ e = e) ∧
    (∀ (e : User) (fn ph av : String),
      applyUserUpdate ⟨some fn, some ph, some av⟩ e
        = { e with full_name := fn, phone := ph, avatar_url := some av }) ∧
    (∀ fn ph av, exceptOk (validateUserUpdate fn ph av)
        = (optStrOk 200 fn && optStrOk 20 ph && optStrOk 500 av)) ∧
    (∀ p : ProviderProfile,
      applyProviderProfileUpdate
        ⟨none, none, none, none, none, none, none, none, none, none, none⟩ p = p) ∧
    (∀ (p : ProviderProfile) (bn ds ad ci pv pc ln : String) (ye : Int) (av : Bool)
       (gi ce : List String),
      applyProviderProfileUpdate
          ⟨some bn, some ds, some ad, some ci, some pv, some pc, some ln, some ye, some av,
            some gi, some ce⟩ p
        = { p with business_name := bn, description := ds, address := ad, city := ci,
                   province := pv, postal_code := pc, license_number := some ln,
                   years_experience := ye, is_available := av, gallery_images := gi,
                   certificates := ce }) ∧
    (∀ bn ds ad ci pv pc ln ye av gi ce,
      exceptOk (validateProviderProfileUpdate bn ds ad ci pv pc ln ye av gi ce)
        = (optStrOk 200 bn && optStrOk 2000 ds && optStrOk 500 ad && optStrOk 100 ci &&
            optStrOk 100 pv && optStrOk 10 pc && optStrOk 100 ln)) ∧
    (∀ s : Service, applyServiceUpdate ⟨none, none, none, none, none, none, none, none⟩ s = s) ∧
    (∀ (s : Service) (t d : String) (p : Dec) (dd mc : Int)
       (inc req : List String) (act : Bool),
      applyServiceUpdate ⟨some t, some d, some p, some dd, some mc, some inc, some req, some act⟩ s
        = { s with title := t, description := d, price := p, duration_days := dd,
                   max_capacity := mc, includes := inc, requirements := req, is_active := act }) ∧
    (∀ t d p dd mc inc req act,
      exceptOk (validateServiceUpdate t d p dd mc inc req act)
        = (optStrOk 200 t && optStrOk 2000 d && optPriceOk p)) ∧
    (∀ b : Booking, applyBookingUpdate ⟨none, none, none, none⟩ b = b) ∧
    (∀ (b : Booking) (bs : BookingStatus) (ps : PaymentStatus) (sn pn : String),
      applyBookingUpdate ⟨some bs, some ps, some sn, some pn⟩ b
        = { b with status := bs, payment_status := ps, seeker_notes := some sn,
                   provider_notes := some pn }) ∧
    (∀ bs ps sn pn, exceptOk (validateBookingUpdate bs ps sn pn)
        = (optStrOk 1000 sn && optStrOk 1000 pn)) ∧
    (∀ r : Review, applyReviewUpdate ⟨none, none⟩ r = r) ∧
    (∀ (r : Review) (rv : Int) (cm : String),
      applyReviewUpdate ⟨some rv, some cm⟩ r = { r with rating := rv, comment := some cm }) ∧
    (∀ rv cm, exceptOk (validateReviewUpdate rv cm) = (optRatingOk rv && optStrOk 1000 cm)) ∧
    (∀ b : BlogPost, applyBlogPostUpdate ⟨none, none, none, none, none, none⟩ b = b) ∧
    (∀ (b : BlogPost) (t c ex fi : String) (bs : BlogStatus) (tg : List String),
      applyBlogPostUpdate ⟨some t, some c, some ex, some fi, some bs, some tg⟩ b
        = { b with title := t, content := c, excerpt := some ex, featured_image := some fi,
                   status := bs, tags := tg }) ∧
    (∀ t c ex fi bs tg, exceptOk (validateBlogPostUpdate t c ex fi bs tg)
        = (optStrOk 300 t && optStrOk 500 ex && optStrOk 500 fi)) := by
  refine ⟨?_, ?_, ?_, ?_, ?_, ?_, ?_, ?_, ?_, ?_, ?_, ?_, ?_, ?_, ?_, ?_, ?_, ?_, ?_, ?_, ?_⟩
  · intro u st
    exact ⟨rfl, rfl, fun h => by simp [applySystemSettingsUpdate, h],
           fun ds h => by simp [applySystemSettingsUpdate, h]⟩
  · intro d; rfl
  · intro s d
    by_cases h1 : 2000 < s.length
    · rw [decide_eq_false (by omega : ¬ s.length ≤ 2000)]
      simp only [validateSystemSettingsUpdate]
      rw [if_pos h1]
      simp [exceptOk]
    · rw [decide_eq_true (by omega : s.length ≤ 2000)]
      simp only [validateSystemSettingsUpdate]
      rw [if_neg h1]
      cases h2 : optStrOk 500 d <;> simp [exceptOk, h2]
  · intro e; rfl
  · intro e fn ph av; rfl
  · intro fn ph av
    cases h1 : optStrOk 200 fn <;> cases h2 : optStrOk 20 ph <;> cases h3 : optStrOk 500 av <;>
      simp [validateUserUpdate, exceptOk, h1, h2, h3]
  · intro p; rfl
  · intro p bn ds ad ci pv pc ln ye av gi ce; rfl
  · intro bn ds ad ci pv pc ln ye av gi ce
    cases h1 : optStrOk 200 bn <;> cases h2 : optStrOk 2000 ds <;> cases h3 : optStrOk 500 ad <;>
      cases h4 : optStrOk 100 ci <;> cases h5 : optStrOk 100 pv <;> cases h6 : optStrOk 10 pc <;>
      cases h7 : optStrOk 100 ln <;>
      simp [validateProviderProfileUpdate, exceptOk, h1, h2, h3, h4, h5, h6, h7]
  · intro s; rfl
  · intro s t d p dd mc inc req act; rfl
  · intro t d p dd mc inc req act
    cases h1 : optStrOk 200 t <;> cases h2 : optStrOk 2000 d <;> cases h3 : optPriceOk p <;>
      simp [validateServiceUpdate, exceptOk, h1, h2, h3]
  · intro b; rfl
  · intro b bs ps sn pn; rfl
  · intro bs ps sn pn
    cases h1 : optStrOk 1000 sn <;> cases h2 : optStrOk 1000 pn <;>
      simp [validateBookingUpdate, exceptOk, h1, h2]
  · intro r; rfl
  · intro r rv cm; rfl
  · intro rv cm
    cases h1 : optRatingOk rv <;> cases h2 : optStrOk 1000 cm <;>
      simp [validateReviewUpdate, exceptOk, h1, h2]
  · intro b; rfl
  · intro b t c ex fi bs tg; rfl
  · intro t c ex fi bs tg
    cases h1 : optStrOk 300 t <;> cases h2 : optStrOk 500 ex <;> cases h3 : optStrOk 500 fi <;>
      simp [validateBlogPostUpdate, exceptOk, h1, h2, h3]

/-- Witness for C2 at concrete inputs: an absent `description` is left
unchanged, a present one overwrites, and a present `value` within 2000
characters validates. -/
theorem c2_update_field_semantics_witness :
    (applySystemSettingsUpdate ⟨"new", none⟩ ⟨some 1, "site_name", "old", some "about", 0, 0⟩).description
        = some "about" ∧
    (applySystemSettingsUpdate ⟨"new", some "d2"⟩ ⟨some 1, "site_name", "old", some "about", 0, 0⟩).description
        = some "d2" ∧
    exceptOk (validateSystemSettingsUpdate (some "v") none) = true :=
  ⟨(c2_update_field_semantics.1 ⟨"new", none⟩ ⟨some 1, "site_name", "old", some "about", 0, 0⟩).2.2.1 rfl,
   (c2_update_field_semantics.1 ⟨"new", some "d2"⟩ ⟨some 1, "site_name", "old", some "about", 0, 0⟩).2.2.2 "d2" rfl,
   by rw [c2_update_field_semantics.2.2.1 "v" none]; decide⟩

/-- Counterexample to C2 as stated: not every field of every Update view is
optional — constructing a `SystemSettingsUpdate` with the `value` field absent
fails validation with "field required". -/
theorem c2_counterexample :
    validateSystemSettingsUpdate none none = Except.error ⟨"value", "field required"⟩ := rfl

/-- Claim C3: the derived fields `average_rating`, `total_reviews` and
`total_completed_services` are absent from both `ProviderProfileCreate` and
`ProviderProfileUpdate`: creation assigns their server defaults (0, 0, 0) and
applying any update leaves them unchanged. -/
theorem c3_derived_fields_not_settable :
    (∀ (c : ProviderProfileCreate) (uid rowId now : Nat),
      (createProviderProfile c uid rowId now).average_rating = ⟨0, 0⟩ ∧
      (createProviderProfile c uid rowId now).total_reviews = 0 ∧
      (createProviderProfile c uid rowId now).total_completed_services = 0) ∧
    (∀ (u : ProviderProfileUpdate) (p : ProviderProfile),
      (applyProviderProfileUpdate u p).average_rating = p.average_rating ∧
      (applyProviderProfileUpdate u p).total_reviews = p.total_reviews ∧
      (applyProviderProfileUpdate u p).total_completed_services = p.total_completed_services) :=
  ⟨fun _ _ _ _ => ⟨rfl, rfl, rfl⟩, fun _ _ => ⟨rfl, rfl, rfl⟩⟩

/-- Witness for C3 at a concrete profile and update. -/
theorem c3_derived_fields_not_settable_witness :
    (createProviderProfile ⟨"Biro A", "Jasa badal", "Jl. 1", "Jakarta", "DKI", "12345", none, 3⟩
      9 1 0).average_rating = ⟨0, 0⟩ :=
  (c3_derived_fields_not_settable.1
    ⟨"Biro A", "Jasa badal", "Jl. 1", "Jakarta", "DKI", "12345", none, 3⟩ 9 1 0).1

/-- Claim C4: at most one `Review` per booking — once an insert for booking
`b` has succeeded, a second `Review` insert referencing the same `booking_id`
fails on the unique constraint, producing no new state. -/
theorem c4_review_unique_per_booking (st st' : Store) (r1 r2 : Review)
    (h : insertReview st r1 = Except.ok st') (hb : r2.booking_id = r1.booking_id) :
    insertReview st' r2 = Except.error ⟨"reviews.booking_id unique"⟩ := by
  unfold insertReview at h ⊢
  by_cases hc : st.reviews.any (fun r0 => r0.booking_id == r1.booking_id) = true
  · rw [if_pos hc] at h; simp at h
  · rw [if_neg hc] at h
    injection h with h
    subst h
    rw [if_pos]
    simp [hb]

/-- Witness for C4: inserting a second review for booking 7 into a store
already holding one fails. -/
theorem c4_review_unique_per_booking_witness :
    insertReview ⟨[], [⟨some 1, 7, 2, 5, none, 0, 0⟩]⟩ ⟨none, 7, 3, 4, none, 0, 0⟩
      = Except.error ⟨"reviews.booking_id unique"⟩ :=
  c4_review_unique_per_booking ⟨[], []⟩ ⟨[], [⟨some 1, 7, 2, 5, none, 0, 0⟩]⟩
    ⟨some 1, 7, 2, 5, none, 0, 0⟩ ⟨none, 7, 3, 4, none, 0, 0⟩ rfl rfl

/-- Claim C5: at most one `ProviderProfile` per user — once an insert for user
`u` has succeeded, a second profile insert with the same `user_id` fails on
the unique constraint, producing no new state. -/
theorem c5_provider_profile_unique_per_user (st st' : Store) (p1 p2 : ProviderProfile)
    (h : insertProviderProfile st p1 = Except.ok st') (hu : p2.user_id = p1.user_id) :
    insertProviderProfile st' p2 = Except.error ⟨"provider_profiles.user_id unique"⟩ := by
  unfold insertProviderProfile at h ⊢
  by_cases hc : st.provider_profiles.any (fun q => q.user_id == p1.user_id) = true
  · rw [if_pos hc] at h; simp at h
  · rw [if_neg hc] at h
    injection h with h
    subst h
    rw [if_pos]
    simp [hu]

/-- Witness for C5: inserting a second profile for user 9 into a store already
holding one fails. -/
theorem c5_provider_profile_unique_per_user_witness :
    insertProviderProfile
      ⟨[⟨some 1, 9, "Biro A", "Jasa", "Jl. 1", "Jakarta", "DKI", "12345", none, 0,
         false, true, ⟨0, 0⟩, 0, 0, [], [], 0, 0⟩], []⟩
      ⟨none, 9, "Biro B", "Jasa", "Jl. 2", "Bandung", "Jabar", "54321", none, 0,
        false, true, ⟨0, 0⟩, 0, 0, [], [], 0, 0⟩
      = Except.error ⟨"provider_profiles.user_id unique"⟩ :=
  c5_provider_profile_unique_per_user ⟨[], []⟩
    ⟨[⟨some 1, 9, "Biro A", "Jasa", "Jl. 1", "Jakarta", "DKI", "12345", none, 0,
       false, true, ⟨0, 0⟩, 0, 0, [], [], 0, 0⟩], []⟩
    ⟨some 1, 9, "Biro A", "Jasa", "Jl. 1", "Jakarta", "DKI", "12345", none, 0,
      false, true, ⟨0, 0⟩, 0, 0, [], [], 0, 0⟩
    ⟨none, 9, "Biro B", "Jasa", "Jl. 2", "Bandung", "Jabar", "54321", none, 0,
      false, true, ⟨0, 0⟩, 0, 0, [], [], 0, 0⟩
    rfl rfl

/-- Claim C6: the `decimal_places=2, max_digits=12` check on `ServiceCreate.price`
(and, identically, on `Booking.total_amount`) rejects any value with more than
2 decimal places or more than 12 total digits and accepts any value with
exactly 2 decimal places within 12 digits; concretely `10.005` is rejected and
`10.00` accepted for `ServiceCreate`. -/
theorem c6_price_decimal_constraint :
    (∀ d : Dec, 2 < d.decimals → checkDigits 2 12 d = false) ∧
    (∀ d : Dec, 12 < d.digits → checkDigits 2 12 d = false) ∧
    (∀ d : Dec, d.decimals = 2 → d.digits ≤ 12 → checkDigits 2 12 d = true) ∧
    (∀ d : Dec, bookingTotalAmountConstraint d = checkDigits 2 12 d) ∧
    exceptOk (validateServiceCreate "Badal Haji Premium" "Paket lengkap" ServiceType.BADAL_HAJI
      ⟨10005, -3⟩ 40 1 [] []) = false ∧
    exceptOk (validateServiceCreate "Badal Haji Premium" "Paket lengkap" ServiceType.BADAL_HAJI
      ⟨1000, -2⟩ 40 1 [] []) = true := by
  refine ⟨?_, ?_, ?_, fun d => rfl, by decide, by decide⟩
  · intro d h
    unfold checkDigits
    rw [decide_eq_false (by omega : ¬ (d.decimals ≤ 2))]
    simp
  · intro d h
    unfold checkDigits
    rw [decide_eq_false (by omega : ¬ (d.digits ≤ 12))]
    simp
  · intro d h1 h2
    unfold checkDigits
    rw [decide_eq_true (show d.decimals ≤ 2 by omega),
        decide_eq_true (show d.digits ≤ 12 from h2),
        decide_eq_true (show d.digits - d.decimals ≤ 12 - 2 by omega)]
    rfl

/-- Witness for C6: `10.005` (3 decimal places) and a 13-digit integer are
rejected; `10.00` is accepted. -/
theorem c6_price_decimal_constraint_witness :
    checkDigits 2 12 ⟨10005, -3⟩ = false ∧
    checkDigits 2 12 ⟨1234567890123, 0⟩ = false ∧
    checkDigits 2 12 ⟨1000, -2⟩ = true :=
  ⟨c6_price_decimal_constraint.1 ⟨10005, -3⟩ (by decide),
   c6_price_decimal_constraint.2.1 ⟨1234567890123, 0⟩ (by decide),
   c6_price_decimal_constraint.2.2.1 ⟨1000, -2⟩ (by decide) (by decide)⟩

/-- Claim C7: `ReviewCreate` accepts a rating exactly when it lies in `[1,5]`;
0 and 6 are rejected, 1 and 5 accepted. -/
theorem c7_rating_bounds :
    (∀ (b : Nat) (r : Int),
      exceptOk (validateReviewCreate b r none) = true ↔ 1 ≤ r ∧ r ≤ 5) ∧
    exceptOk (validateReviewCreate 1 0 none) = false ∧
    exceptOk (validateReviewCreate 1 6 none) = false ∧
    exceptOk (validateReviewCreate 1 1 none) = true ∧
    exceptOk (validateReviewCreate 1 5 none) = true := by
  refine ⟨?_, by decide, by decide, by decide, by decide⟩
  intro b r
  unfold validateReviewCreate
  by_cases h1 : r < 1
  · rw [if_pos h1]; simp [exceptOk]; omega
  · rw [if_neg h1]
    by_cases h2 : 5 < r
    · rw [if_pos h2]; simp [exceptOk]; omega
    · rw [if_neg h2]
      simp [optStrOk, exceptOk]
      omega

/-- Witness for C7: rating 3 with booking 1 validates. -/
theorem c7_rating_bounds_witness :
    exceptOk (validateReviewCreate 1 3 none) = true :=
  (c7_rating_bounds.1 1 3).mpr ⟨by decide, by decide⟩

/-- Claim C8: with the other fields valid, `UserCreate` accepts the password
exactly when its length is between 8 and 128 characters inclusive. -/
theorem c8_password_length :
    (∀ pw : String,
      exceptOk (validateUserCreate "user@example.com" pw "Full Name" "08123456789"
        UserRole.SEEKER) = true ↔ 8 ≤ pw.length ∧ pw.length ≤ 128) ∧
    exceptOk (validateUserCreate "user@example.com" "short" "Full Name" "08123456789"
      UserRole.SEEKER) = false ∧
    exceptOk (validateUserCreate "user@example.com" (String.mk (List.replicate 129 'a'))
      "Full Name" "08123456789" UserRole.SEEKER) = false ∧
    exceptOk (validateUserCreate "user@example.com" "password" "Full Name" "08123456789"
      UserRole.SEEKER) = true ∧
    exceptOk (validateUserCreate "user@example.com" (String.mk (List.replicate 128 'a'))
      "Full Name" "08123456789" UserRole.SEEKER) = true := by
  refine ⟨?_, by decide, by decide, by decide, by decide⟩
  intro pw
  unfold validateUserCreate
  rw [if_neg (by decide : ¬ (255 < ("user@example.com" : String).length))]
  by_cases h2 : pw.length < 8
  · rw [if_pos h2]; simp [exceptOk]; omega
  · rw [if_neg h2]
    by_cases h3 : 128 < pw.length
    · rw [if_pos h3]; simp [exceptOk]; omega
    · rw [if_neg h3]
      rw [if_neg (by decide : ¬ (200 < ("Full Name" : String).length))]
      rw [if_neg (by decide : ¬ (20 < ("08123456789" : String).length))]
      simp [exceptOk]
      omega

/-- Witness for C8: an 11-character password validates. -/
theorem c8_password_length_witness :
    exceptOk (validateUserCreate "user@example.com" "password123" "Full Name" "08123456789"
      UserRole.SEEKER) = true :=
  (c8_password_length.1 "password123").mpr ⟨by decide, by decide⟩

/-- Claim C9: `UserLogin` imposes no minimum password length and no email
pattern — it validates exactly when the email is within 255 characters and the
password within 128, so the empty password and a non-email string validate. -/
theorem c9_login_validation :
    (∀ email password : String,
      exceptOk (validateUserLogin email password) = true ↔
        email.length ≤ 255 ∧ password.length ≤ 128) ∧
    exceptOk (validateUserLogin "not-an-email" "") = true ∧
    emailMatch "not-an-email" = false := by
  refine ⟨?_, by decide, by decide⟩
  intro e p
  unfold validateUserLogin
  by_cases h1 : 255 < e.length
  · rw [if_pos h1]; simp [exceptOk]; omega
  · rw [if_neg h1]
    by_cases h2 : 128 < p.length
    · rw [if_pos h2]; simp [exceptOk]; omega
    · rw [if_neg h2]; simp [exceptOk]; omega

/-- Witness for C9: a short login with an empty password validates. -/
theorem c9_login_validation_witness :
    exceptOk (validateUserLogin "a@b.c" "") = true :=
  (c9_login_validation.1 "a@b.c" "").mpr ⟨by decide, by decide⟩

/-- Claim C10: `ServiceUpdate` has no `service_type` field, so applying any
update leaves the service_type of a service unchanged. -/
theorem c10_service_type_immutable (u : ServiceUpdate) (s : Service) :
    (applyServiceUpdate u s).service_type = s.service_type := rfl

/-- Witness for C10 at a concrete update and service. -/
theorem c10_service_type_immutable_witness :
    (applyServiceUpdate ⟨some "New title", none, none, none, none, none, none, none⟩
      ⟨some 1, 2, "Old title", "Desc", ServiceType.BADAL_HAJI, ⟨1000, -2⟩, 40, 1, [], [],
        true, 0, 0⟩).service_type = ServiceType.BADAL_HAJI :=
  c10_service_type_immutable ⟨some "New title", none, none, none, none, none, none, none⟩
    ⟨some 1, 2, "Old title", "Desc", ServiceType.BADAL_HAJI, ⟨1000, -2⟩, 40, 1, [], [],
      true, 0, 0⟩

end HajiUmrah
